import Mathlib

/-!
Shallow embedding of the location-resolution core of the
listening-activity-map repository, and proofs about the claims of its
specification.

The embedded code is `src/lib/musicbrainzDB.ts` (the geo disambiguator
`getLocationFromMusicBrainzDB`, the special-case override table, the store
query helpers) and `src/lib/artistLocation.ts` (the resolution orchestrator
`getArtistLocation` with its session cache).

Modelling conventions:
- SQLite rows become a Lean structure `ArtistRow`; a nullable column is an
  `Option`; the durable table is a `List ArtistRow` queried by
  `normalized_name`.
- JavaScript numbers are modelled as `Rat` (the code only compares
  coordinates against decimal literals; no arithmetic is performed).
- JavaScript truthiness on a nullable string is `strTruthy` (`null`,
  `undefined` and `""` are falsy); on a nullable number it is "present and
  nonzero".
- `a || b` on nullable strings is `orJS`; a trailing `|| undefined`
  becomes a trailing `orJS ... none`.
-/

/-- A row of the `artists` SQLite table (schema in `musicbrainzDB.ts`),
restricted to the columns the embedded queries read. -/
structure ArtistRow where
  name : String
  normalized_name : String
  mbid : Option String
  area_name : Option String
  begin_area_name : Option String
  country_code : Option String
  lat : Option Rat
  lng : Option Rat
  city : Option String
  country : Option String
deriving DecidableEq, Repr

/-- The result shape of `getLocationFromMusicBrainzDB`
(`{ lat: number; lng: number; city?: string; country?: string }`), which is
also the `LocationData` shape of `artistLocation.ts`. -/
structure ResolvedLocation where
  lat : Rat
  lng : Rat
  city : Option String
  country : Option String
deriving DecidableEq, Repr

/-- JavaScript truthiness of a nullable string: `null`/`undefined` and the
empty string are falsy. -/
def strTruthy : Option String → Bool
  | some s => decide (s ≠ "")
  | none => false

/-- JavaScript truthiness of a nullable number: `null`/`undefined` and `0`
are falsy. -/
def numTruthy : Option Rat → Bool
  | some x => decide (x ≠ 0)
  | none => false

/-- JavaScript `a || b` on nullable strings: the left operand when truthy,
otherwise the right operand. -/
def orJS (a b : Option String) : Option String :=
  if strTruthy a then a else b

/-- The `knownCountries` set of `getLocationFromMusicBrainzDB`. -/
def knownCountries : List String :=
  ["United States", "United Kingdom", "Canada", "Australia", "Germany",
   "France", "Japan", "Italy", "Spain", "Netherlands", "Sweden", "Norway",
   "Denmark", "Finland", "Poland", "Brazil", "Mexico", "Argentina", "India",
   "China", "South Korea", "Russia", "Belgium", "Switzerland", "Austria",
   "Portugal", "Greece", "Ireland", "New Zealand", "South Africa", "Turkey",
   "Indonesia", "Thailand", "Vietnam", "Philippines", "Chile", "Colombia",
   "Peru"]

/-- `knownCountries.has(s)` on a nullable string (falsy values are never
members). -/
def isKnownOpt : Option String → Bool
  | some s => decide (s ∈ knownCountries)
  | none => false

/-- The `countryCodeMap` record (identical at its three occurrences in
`getLocationFromMusicBrainzDB`). -/
def countryCodeMap : List (String × String) :=
  [("US", "United States"), ("GB", "United Kingdom"), ("CA", "Canada"),
   ("AU", "Australia"), ("DE", "Germany"), ("FR", "France"), ("JP", "Japan"),
   ("IT", "Italy"), ("ES", "Spain"), ("NL", "Netherlands"), ("SE", "Sweden"),
   ("NO", "Norway"), ("DK", "Denmark"), ("FI", "Finland"), ("PL", "Poland"),
   ("BR", "Brazil"), ("MX", "Mexico"), ("AR", "Argentina"), ("IN", "India"),
   ("CN", "China"), ("KR", "South Korea"), ("RU", "Russia"),
   ("IE", "Ireland"), ("NZ", "New Zealand"), ("ZA", "South Africa"),
   ("TR", "Turkey"), ("ID", "Indonesia"), ("TH", "Thailand"),
   ("VN", "Vietnam"), ("PH", "Philippines"), ("CL", "Chile"),
   ("CO", "Colombia"), ("PE", "Peru")]

/-- `countryCodeMap[cc]`: the mapped display name, or `undefined` when the
code is absent from the record. -/
def codeLookup (cc : String) : Option String :=
  (countryCodeMap.find? (fun p => decide (p.1 = cc))).map (·.2)

/-- The priority cascade of `getLocationFromMusicBrainzDB` (lines 92-135)
producing the initial `(city, country)` candidate pair from a row that has
truthy coordinates. -/
def initialPair (row : ArtistRow) : Option String × Option String :=
  if strTruthy row.city && strTruthy row.country && row.city != row.country
      && !isKnownOpt row.city && isKnownOpt row.country then
    (row.city, row.country)
  else if strTruthy row.begin_area_name && strTruthy row.area_name then
    (row.begin_area_name,
      if isKnownOpt row.area_name then row.area_name
      else orJS row.country_code row.area_name)
  else if strTruthy row.begin_area_name then
    (row.begin_area_name,
      orJS (orJS (orJS row.country row.area_name) row.country_code) none)
  else if strTruthy row.area_name then
    if isKnownOpt row.area_name then
      (orJS (orJS row.city row.begin_area_name) none, row.area_name)
    else
      (row.area_name,
        if strTruthy row.country && isKnownOpt row.country
            && row.country != row.area_name then row.country
        else if strTruthy row.country_code then row.country_code
        else none)
  else
    (orJS (orJS row.city row.begin_area_name) none,
     orJS (orJS row.country row.country_code) none)

/-- Swap pass (lines 137-143): `country` not a known country while `city`
is one means the stored values are reversed. -/
def passSwap (p : Option String × Option String) :
    Option String × Option String :=
  if strTruthy p.2 && !isKnownOpt p.2 && strTruthy p.1 && isKnownOpt p.1 then
    (p.2, p.1)
  else p

/-- City-in-country-field pass (lines 145-150): an unknown `country` with no
`city` is moved into the `city` field. -/
def passCityInCountry (p : Option String × Option String) :
    Option String × Option String :=
  if strTruthy p.2 && !isKnownOpt p.2 && !strTruthy p.1 then (p.2, none)
  else p

/-- Duplicate-collapse pass (lines 152-157): equal `city`/`country` with an
unknown value drops `country`. -/
def passDupCollapse (p : Option String × Option String) :
    Option String × Option String :=
  if strTruthy p.1 && strTruthy p.2 && p.1 == p.2 && !isKnownOpt p.1 then
    (p.1, none)
  else p

/-- Code-to-name mapping pass (lines 159-171): a truthy `country_code` with a
falsy candidate `country` is mapped through `countryCodeMap`, falling back to
the raw code. -/
def passCodeMap (row : ArtistRow) (p : Option String × Option String) :
    Option String × Option String :=
  if strTruthy row.country_code && !strTruthy p.2 then
    (p.1, some ((codeLookup (row.country_code.getD "")).getD
      (row.country_code.getD "")))
  else p

/-- The United States bounding box of the coordinate-inference pass
(line 176). -/
def inUSBox (la ln : Rat) : Bool :=
  decide (la ≥ mkRat 24396308 1000000) && decide (la ≤ mkRat 49384358 1000000)
    && decide (ln ≥ (-125)) && decide (ln ≤ mkRat (-6693457) 100000)

/-- The United Kingdom bounding box of the coordinate-inference pass
(line 180). -/
def inUKBox (la ln : Rat) : Bool :=
  decide (la ≥ mkRat 498 10) && decide (la ≤ mkRat 609 10)
    && decide (ln ≥ mkRat (-82) 10) && decide (ln ≤ mkRat 18 10)

/-- The Canada bounding box of the coordinate-inference pass (line 184). -/
def inCanadaBox (la ln : Rat) : Bool :=
  decide (la ≥ mkRat 417 10) && decide (la ≤ mkRat 831 10)
    && decide (ln ≥ (-141)) && decide (ln ≤ mkRat (-526) 10)

/-- The first-match-wins `if`/`else if` chain of the coordinate-inference
pass (lines 175-187): United States, then United Kingdom, then Canada. -/
def boxInfer (la ln : Rat) : Option String :=
  if inUSBox la ln then some "United States"
  else if inUKBox la ln then some "United Kingdom"
  else if inCanadaBox la ln then some "Canada"
  else none

/-- Coordinate-inference pass (lines 173-188): when `city` is truthy,
`country` falsy and the coordinates truthy, the first matching bounding box
assigns the country; no match leaves the pair untouched. -/
def passCoordInfer (row : ArtistRow) (p : Option String × Option String) :
    Option String × Option String :=
  if strTruthy p.1 && !strTruthy p.2 && numTruthy row.lat
      && numTruthy row.lng then
    match boxInfer (row.lat.getD 0) (row.lng.getD 0) with
    | some v => (p.1, some v)
    | none => p
  else p

/-- Final duplicate check with code mapping (lines 190-208): equal truthy
`city`/`country` with a truthy `country_code` re-runs the code map, keeping
the raw code when unmapped. -/
def passFinalCodeMap (row : ArtistRow) (p : Option String × Option String) :
    Option String × Option String :=
  if strTruthy p.1 && strTruthy p.2 && p.1 == p.2
      && strTruthy row.country_code then
    match codeLookup (row.country_code.getD "") with
    | some m => (p.1, some m)
    | none => (p.1, some (row.country_code.getD ""))
  else p

/-- Last-resort duplicate clear (lines 210-226): equal `city`/`country` with
an unknown value clears `country`, then retries the code map (dropping the
raw code this time). -/
def passLastResort (row : ArtistRow) (p : Option String × Option String) :
    Option String × Option String :=
  if strTruthy p.1 && strTruthy p.2 && p.1 == p.2 && !isKnownOpt p.1 then
    (p.1,
      if strTruthy row.country_code then
        codeLookup (row.country_code.getD "")
      else none)
  else p

/-- The full `(city, country)` computation of `getLocationFromMusicBrainzDB`
for a row with truthy coordinates: the priority cascade followed by the
correction passes in source order. -/
def resolveCityCountry (row : ArtistRow) : Option String × Option String :=
  passLastResort row (passFinalCodeMap row (passCoordInfer row
    (passCodeMap row (passDupCollapse (passCityInCountry (passSwap
      (initialPair row)))))))

/-- The per-row body of `getLocationFromMusicBrainzDB` (lines 76-244): with
truthy coordinates it returns the resolved location; otherwise (coordinates
absent, partial, or zero) every path returns `null`. -/
def getLocationRow (row : ArtistRow) : Option ResolvedLocation :=
  if numTruthy row.lat && numTruthy row.lng then
    some ⟨row.lat.getD 0, row.lng.getD 0, (resolveCityCountry row).1,
      (resolveCityCountry row).2⟩
  else none

/-- `artistName.toLowerCase()`, modelled character-by-character over the
string's character list (JS lowercases each character; the names in play are
plain text). -/
def toLowerJS (s : String) : String := ⟨s.data.map Char.toLower⟩

/-- `s.trim()`: strip leading and trailing whitespace, modelled over the
string's character list. -/
def trimJS (s : String) : String :=
  ⟨((s.data.dropWhile Char.isWhitespace).reverse.dropWhile
      Char.isWhitespace).reverse⟩

/-- `artistName.toLowerCase().trim()`. -/
def normalizeName (s : String) : String := trimJS (toLowerJS s)

/-- The `specialCases` override table of `getLocationFromMusicBrainzDB`
(lines 61-64). -/
def specialCases (k : String) : Option ResolvedLocation :=
  if k = "m.i.a." then
    some ⟨mkRat 515074 10000, mkRat (-1278) 10000, some "London", some "United Kingdom"⟩
  else if k = "m.i.a" then
    some ⟨mkRat 515074 10000, mkRat (-1278) 10000, some "London", some "United Kingdom"⟩
  else none

/-- The `SELECT ... WHERE normalized_name = ?` store query. -/
def findRow (store : List ArtistRow) (k : String) : Option ArtistRow :=
  store.find? (fun r => decide (r.normalized_name = k))

/-- `getLocationFromMusicBrainzDB` (lines 56-245): normalize the name, check
the override table, then fetch the row and disambiguate it. -/
def getLocationFromMusicBrainzDB (store : List ArtistRow)
    (artistName : String) : Option ResolvedLocation :=
  match specialCases (normalizeName artistName) with
  | some v => some v
  | none =>
    match findRow store (normalizeName artistName) with
    | some row => getLocationRow row
    | none => none

/-- `getAllArtistsFromDB` (lines 296-300): `SELECT name FROM artists`. -/
def getAllArtistsFromDB (store : List ArtistRow) : List String :=
  store.map (·.name)

/-- `getArtistsWithoutCoordinates` (lines 302-309): `SELECT name FROM
artists WHERE lat IS NULL OR lng IS NULL` (SQL `IS NULL`, not JS
truthiness). -/
def getArtistsWithoutCoordinates (store : List ArtistRow) : List String :=
  (store.filter (fun r => r.lat.isNone || r.lng.isNone)).map (·.name)

/-- The spec's wording of the store contract `listMissingCoordinates`
(spec section 4.4), written for comparison with the source function
`getArtistsWithoutCoordinates`: the normalized keys of the records that have
area info but null coordinates. -/
def listMissingCoordinatesSpec (store : List ArtistRow) : List String :=
  (store.filter (fun r =>
    (r.area_name.isSome || r.begin_area_name.isSome)
      && (r.lat.isNone || r.lng.isNone))).map (·.normalized_name)

/-- The observable state of the resolution orchestrator
(`artistLocation.ts`): the session cache `locationCache` (a map keyed by the
raw `artistName` argument, modelled as an association list with newest entry
first), plus two effect logs that make store reads and JSON-database writes
visible: `storeReads` collects each key passed to
`getLocationFromMusicBrainzDB`, `jsonWrites` each `saveLocationToDB` call. -/
structure OrcState where
  cache : List (String × Option ResolvedLocation)
  storeReads : List String
  jsonWrites : List (String × ResolvedLocation)
deriving DecidableEq, Repr

/-- `locationCache.has(name)` / `locationCache.get(name)` as one lookup. -/
def cacheLookup (c : List (String × Option ResolvedLocation)) (n : String) :
    Option (Option ResolvedLocation) :=
  (c.find? (fun p => decide (p.1 = n))).map (·.2)

/-- `getArtistLocation` (`artistLocation.ts` lines 22-44): check the session
cache under the raw name; on a miss query the MusicBrainz store, cache the
result (also when `null`), and log the JSON-database write performed for a
found location. -/
def getArtistLocation (store : List ArtistRow) (s : OrcState)
    (artistName : String) : Option ResolvedLocation × OrcState :=
  match cacheLookup s.cache artistName with
  | some v => (v, s)
  | none =>
    let reads := artistName :: s.storeReads
    match getLocationFromMusicBrainzDB store artistName with
    | some loc =>
      (some loc,
        ⟨(artistName, some loc) :: s.cache, reads,
          (artistName, loc) :: s.jsonWrites⟩)
    | none => (none, ⟨(artistName, none) :: s.cache, reads, s.jsonWrites⟩)

/-- State-passing form of `getLocationFromMusicBrainzDB`: the store is
threaded through explicitly so that the absence of writes is visible in the
type. The override branch never touches the store; the row branch performs
one read and passes the store along unchanged. -/
def getLocationRun (store : List ArtistRow) (artistName : String) :
    Option ResolvedLocation × List ArtistRow :=
  match specialCases (normalizeName artistName) with
  | some v => (some v, store)
  | none =>
    match findRow store (normalizeName artistName) with
    | some row => (getLocationRow row, store)
    | none => (none, store)

/-- The swap-correction test record of the spec (section 8): no area fields,
stored `city` and `country` reversed, coordinates in Austin. -/
def austinSwapRow : ArtistRow :=
  ⟨"Swap Artist", "swap artist", none, none, none, none, some (mkRat 3027 100),
    some (mkRat (-9774) 100), some "United States", some "Austin"⟩

/-- The code-mapping test record of the spec (section 8): `countryCode`
`"GB"`, `city` `"London"`, no stored `country`, coordinates in London. -/
def londonGBRow : ArtistRow :=
  ⟨"London Artist", "london artist", none, none, none, some "GB",
    some (mkRat 515 10), some (mkRat (-12) 100), some "London", none⟩

/-- The coordinate-inference test record of the spec (section 8): `city`
`"Austin"`, no other signal, coordinates in Austin. -/
def austinInferRow : ArtistRow :=
  ⟨"Austin Artist", "austin artist", none, none, none, none,
    some (mkRat 3027 100), some (mkRat (-9774) 100), some "Austin", none⟩

/-- A stored record whose `city` and `country` both hold the same recognized
country name. -/
def canadaDupRow : ArtistRow :=
  ⟨"Dup Artist", "dup artist", none, none, none, none, some 1, some 1,
    some "Canada", some "Canada"⟩

/-- A stored record with no area information and no coordinates. -/
def beatlesRow : ArtistRow :=
  ⟨"The Beatles", "the beatles", none, none, none, none, none, none, none,
    none⟩

/-- Claim C2: a stored record with both area fields absent, stored city
"United States", stored country "Austin" and coordinates lat 30.27, lng -97.74 hits
the swap-detection pass (country not a recognized country name while city is
one), and the disambiguator returns city "Austin", country "United States".
The first conjunct is the swap pass in general; the second is the full
pipeline on the record. -/
theorem swap_detection_correct :
    (∀ p : Option String × Option String,
      strTruthy p.2 = true → isKnownOpt p.2 = false →
      strTruthy p.1 = true → isKnownOpt p.1 = true →
      passSwap p = (p.2, p.1)) ∧
    getLocationRow austinSwapRow =
      some ⟨mkRat 3027 100, mkRat (-9774) 100, some "Austin",
        some "United States"⟩ := by
  constructor
  · intro p h1 h2 h3 h4
    simp [passSwap, h1, h2, h3, h4]
  · decide

/-- Witness for `swap_detection_correct`: the swap pass at the concrete pair
("United States", "Austin"). -/
theorem swap_detection_correct_witness :
    passSwap (some "United States", some "Austin") =
      (some "Austin", some "United States") :=
  swap_detection_correct.1 (some "United States", some "Austin")
    (by decide) (by decide) (by decide) (by decide)

/-- Claim C3: looking up "m.i.a." returns the override location
{51.5074, -0.1278, London, United Kingdom} whatever the store holds, and in
general any name whose normalized key is in the override table is answered
from the table alone: the result does not depend on the store and no store
row is consulted. -/
theorem override_precedence :
    (∀ store : List ArtistRow,
      getLocationFromMusicBrainzDB store "m.i.a." =
        some ⟨mkRat 515074 10000, mkRat (-1278) 10000, some "London",
          some "United Kingdom"⟩) ∧
    (∀ (store : List ArtistRow) (name : String) (v : ResolvedLocation),
      specialCases (normalizeName name) = some v →
      getLocationFromMusicBrainzDB store name = some v ∧
      getLocationRun store name = (some v, store)) := by
  constructor
  · intro store
    rfl
  · intro store name v h
    unfold getLocationFromMusicBrainzDB getLocationRun
    rw [h]
    exact ⟨rfl, rfl⟩

/-- Witness for `override_precedence`: the override key "m.i.a" (without the
final period), on a store that carries a conflicting raw record under that
key. -/
theorem override_precedence_witness :
    getLocationFromMusicBrainzDB
        [⟨"m.i.a", "m.i.a", none, none, none, none, some 1, some 1,
          some "Colombo", some "Sri Lanka"⟩] "m.i.a" =
      some ⟨mkRat 515074 10000, mkRat (-1278) 10000, some "London",
        some "United Kingdom"⟩ ∧
    getLocationRun
        [⟨"m.i.a", "m.i.a", none, none, none, none, some 1, some 1,
          some "Colombo", some "Sri Lanka"⟩] "m.i.a" =
      (some ⟨mkRat 515074 10000, mkRat (-1278) 10000, some "London",
        some "United Kingdom"⟩,
       [⟨"m.i.a", "m.i.a", none, none, none, none, some 1, some 1,
          some "Colombo", some "Sri Lanka"⟩]) :=
  override_precedence.2
    [⟨"m.i.a", "m.i.a", none, none, none, none, some 1, some 1,
      some "Colombo", some "Sri Lanka"⟩] "m.i.a"
    ⟨mkRat 515074 10000, mkRat (-1278) 10000, some "London",
      some "United Kingdom"⟩ (by decide)

/-- Claim C4 (divergence witness): on the record with countryCode "GB", city
"London", stored country null and coordinates lat 51.5, lng -0.12, the code returns
country "GB", not "United Kingdom": the neither-area-field fallback pre-fills
the candidate country with the raw code (line 134), so the code-to-name
mapping pass, guarded by a falsy country (line 160), never runs. -/
theorem code_mapping_returns_raw_code :
    getLocationRow londonGBRow =
      some ⟨mkRat 515 10, mkRat (-12) 100, some "London", some "GB"⟩ ∧
    some "GB" ≠ some "United Kingdom" := by
  constructor
  · decide
  · decide

/-- Claim C5: bounding-box country inference. The record {city "Austin",
country undefined, lat 30.27, lng -97.74, no countryCode} resolves to country
"United States"; the boxes are tested first-match-wins in the order United
States, United Kingdom, Canada; a coordinate lying in both the United States
and Canada boxes yields "United States"; and when city is set, country still
falsy and the coordinates truthy, the pass assigns exactly the first
matching box's country. -/
theorem coordinate_inference_first_match :
    getLocationRow austinInferRow =
      some ⟨mkRat 3027 100, mkRat (-9774) 100, some "Austin",
        some "United States"⟩ ∧
    (∀ la ln : Rat, inUSBox la ln = true →
      boxInfer la ln = some "United States") ∧
    (∀ la ln : Rat, inUSBox la ln = false → inUKBox la ln = true →
      boxInfer la ln = some "United Kingdom") ∧
    (∀ la ln : Rat, inUSBox la ln = false → inUKBox la ln = false →
      inCanadaBox la ln = true → boxInfer la ln = some "Canada") ∧
    (∀ la ln : Rat, inUSBox la ln = true → inCanadaBox la ln = true →
      boxInfer la ln = some "United States") ∧
    (∀ (row : ArtistRow) (p : Option String × Option String)
        (la ln : Rat) (v : String),
      row.lat = some la → row.lng = some ln →
      strTruthy p.1 = true → strTruthy p.2 = false → la ≠ 0 → ln ≠ 0 →
      boxInfer la ln = some v → passCoordInfer row p = (p.1, some v)) := by
  refine ⟨by decide, ?_, ?_, ?_, ?_, ?_⟩
  · intro la ln h
    simp [boxInfer, h]
  · intro la ln h1 h2
    simp [boxInfer, h1, h2]
  · intro la ln h1 h2 h3
    simp [boxInfer, h1, h2, h3]
  · intro la ln h1 _
    simp [boxInfer, h1]
  · intro row p la ln v hla hln h1 h2 h3 h4 hbox
    unfold passCoordInfer
    rw [hla, hln]
    simp [numTruthy, h1, h2, h3, h4, hbox]

/-- Witness for `coordinate_inference_first_match`: the point lat 45, lng -100 lies in
both the United States box and the Canada box, and the first-match-wins
chain answers "United States". -/
theorem coordinate_inference_first_match_witness :
    boxInfer 45 (-100) = some "United States" :=
  (coordinate_inference_first_match.2.2.2.2.1) 45 (-100) (by decide)
    (by decide)

/-- Claim C6: a stored record whose coordinates are absent, including the
malformed case where only one of lat/lng is set, makes the disambiguator
return null (never an error: the embedding is a total function into an
option type). -/
theorem missing_coords_give_null (row : ArtistRow)
    (h : row.lat = none ∨ row.lng = none) : getLocationRow row = none := by
  unfold getLocationRow
  rcases h with h | h <;> rw [h] <;> simp [numTruthy]

/-- Witness for `missing_coords_give_null`: a malformed record with only lat
set degrades to null exactly like a record with both coordinates absent. -/
theorem missing_coords_give_null_witness :
    getLocationRow ⟨"Half", "half", none, some "Texas", none, none, some 1,
      none, none, none⟩ = none :=
  missing_coords_give_null
    ⟨"Half", "half", none, some "Texas", none, none, some 1, none, none,
      none⟩ (Or.inr rfl)

/-- Claim C10: coordinate presence is decided by numeric truthiness: a
stored record with lat = 0 or lng = 0 (equator or prime meridian) is treated
exactly as if its coordinates were absent and resolves to null even though
both coordinates are present. -/
theorem zero_coordinate_treated_absent (row : ArtistRow) (la ln : Rat)
    (hla : row.lat = some la) (hln : row.lng = some ln)
    (h : la = 0 ∨ ln = 0) : getLocationRow row = none := by
  unfold getLocationRow
  rw [hla, hln]
  rcases h with h | h <;> simp [numTruthy, h]

/-- Witness for `zero_coordinate_treated_absent`: a record on the prime
meridian (lng = 0, lat = 51) with full area information still resolves to
null. -/
theorem zero_coordinate_treated_absent_witness :
    getLocationRow ⟨"Greenwich", "greenwich", none, some "United Kingdom",
      some "London", some "GB", some 51, some 0, none, none⟩ = none :=
  zero_coordinate_treated_absent
    ⟨"Greenwich", "greenwich", none, some "United Kingdom", some "London",
      some "GB", some 51, some 0, none, none⟩ 51 0 rfl rfl (Or.inr rfl)

/-- Claim C7 (counterexample): the claim says `getArtistsWithoutCoordinates`
returns the normalized keys of exactly the stored records with area info
present and null coordinates. On a store holding one record with no area
info and null coordinates, the code returns the record's display name
"The Beatles": the record is included despite having no area info, and the
identifier is the display name, not the normalized key "the beatles"; the
spec-worded function returns the empty list there. -/
theorem missing_coords_list_counterexample :
    getArtistsWithoutCoordinates [beatlesRow] = ["The Beatles"] ∧
    listMissingCoordinatesSpec [beatlesRow] = ([] : List String) ∧
    "The Beatles" ≠ "the beatles" := by
  refine ⟨by decide, by decide, by decide⟩

/-- Claim C7 (amended): `getArtistsWithoutCoordinates` returns the display
names (`name` column) of exactly the stored records with `lat` or `lng`
NULL; area information plays no role. -/
theorem missing_coords_list_characterization
    (store : List ArtistRow) (n : String) :
    n ∈ getArtistsWithoutCoordinates store ↔
      ∃ r ∈ store, r.name = n ∧ (r.lat = none ∨ r.lng = none) := by
  unfold getArtistsWithoutCoordinates
  simp only [List.mem_map, List.mem_filter, Bool.or_eq_true,
    Option.isNone_iff_eq_none]
  constructor
  · rintro ⟨r, ⟨hr, hco⟩, hn⟩
    exact ⟨r, hr, hn, hco⟩
  · rintro ⟨r, hr, hn, hco⟩
    exact ⟨r, ⟨hr, hco⟩, hn⟩

/-- Claim C9: the disambiguation read path is pure and writes nothing: the
state-passing form returns the store unchanged and computes the same value
as the pure function; the value depends only on the row fetched for the
normalized key (so two calls against the same store state, or any store
state holding the same record, return identical results). -/
theorem disambiguation_pure_deterministic :
    (∀ (store : List ArtistRow) (name : String),
      (getLocationRun store name).2 = store) ∧
    (∀ (store : List ArtistRow) (name : String),
      (getLocationRun store name).1 =
        getLocationFromMusicBrainzDB store name) ∧
    (∀ (s1 s2 : List ArtistRow) (name : String),
      findRow s1 (normalizeName name) = findRow s2 (normalizeName name) →
      getLocationFromMusicBrainzDB s1 name =
        getLocationFromMusicBrainzDB s2 name) := by
  refine ⟨?_, ?_, ?_⟩
  · intro store name
    unfold getLocationRun
    rcases h : specialCases (normalizeName name) with _ | v
    · rcases h2 : findRow store (normalizeName name) with _ | row <;> simp
    · simp
  · intro store name
    unfold getLocationRun getLocationFromMusicBrainzDB
    rcases h : specialCases (normalizeName name) with _ | v
    · rcases h2 : findRow store (normalizeName name) with _ | row <;> simp
    · simp
  · intro s1 s2 name h
    unfold getLocationFromMusicBrainzDB
    rcases hs : specialCases (normalizeName name) with _ | v
    · rw [h]
    · rfl

/-- Witness for `disambiguation_pure_deterministic`: two different store
states that hold no row for the key "zzz" give the same answer. -/
theorem disambiguation_pure_deterministic_witness :
    getLocationFromMusicBrainzDB [beatlesRow] "zzz" =
      getLocationFromMusicBrainzDB [] "zzz" :=
  disambiguation_pure_deterministic.2.2 [beatlesRow] [] "zzz" (by decide)

/-- Claim C8 (counterexample): the session cache is keyed by the raw
artist name, not the normalized key. After a first call for "A" (store read
logged, null cached under "A"), a second call for "a" — same normalized
key — misses the cache and invokes the store again: the read log grows to
["a", "A"]. -/
theorem cache_key_counterexample :
    getArtistLocation [] ⟨[], [], []⟩ "A" =
      (none, ⟨[("A", none)], ["A"], []⟩) ∧
    getArtistLocation [] ⟨[("A", none)], ["A"], []⟩ "a" =
      (none, ⟨[("a", none), ("A", none)], ["a", "A"], []⟩) ∧
    normalizeName "A" = normalizeName "a" := by
  refine ⟨by decide, by decide, by decide⟩

/-- Claim C8 (amended): the session cache is keyed by the raw artist name
(only the store lookup normalizes): after one resolved (or null) call for a
name, a second call with the identical raw name returns the identical
result from the session cache and leaves the orchestrator state — including
the store-read log — unchanged; a differently-written name with the same
normalized key is looked up in the store again. -/
theorem cache_consistency_raw_name (store : List ArtistRow) (s : OrcState)
    (name : String) (r : Option ResolvedLocation) (s2 : OrcState)
    (h : getArtistLocation store s name = (r, s2)) :
    getArtistLocation store s2 name = (r, s2) := by
  unfold getArtistLocation at h ⊢
  rcases hc : cacheLookup s.cache name with _ | v
  · rw [hc] at h
    rcases hdb : getLocationFromMusicBrainzDB store name with _ | loc <;>
        rw [hdb] at h <;>
      · obtain ⟨rfl, rfl⟩ := Prod.mk.injEq .. ▸ h
        simp [cacheLookup]
  · rw [hc] at h
    obtain ⟨rfl, rfl⟩ := Prod.mk.injEq .. ▸ h
    rw [hc]

/-- Witness for `cache_consistency_raw_name`: after the first call for "x"
on an empty store, a repeated call for the same raw name "x" returns the
cached null and does not touch the store-read log again. -/
theorem cache_consistency_raw_name_witness :
    getArtistLocation [] ⟨[("x", none)], ["x"], []⟩ "x" =
      (none, ⟨[("x", none)], ["x"], []⟩) :=
  cache_consistency_raw_name [] ⟨[], [], []⟩ "x" none
    ⟨[("x", none)], ["x"], []⟩ (by decide)

lemma strTruthy_ne (o : Option String) (h : strTruthy o = true) :
    o ≠ some "" := by
  cases o with
  | none => simp
  | some s =>
    simp only [strTruthy, decide_eq_true_eq] at h
    simp [h]

lemma orJS_ne (a b : Option String) (hb : b ≠ some "") :
    orJS a b ≠ some "" := by
  unfold orJS
  split
  · next h => exact strTruthy_ne a h
  · exact hb

lemma codeLookup_mem_known (cc m : String) (h : codeLookup cc = some m) :
    m ∈ knownCountries := by
  unfold codeLookup at h
  rcases Option.map_eq_some'.mp h with ⟨pr, hfind, hm⟩
  subst hm
  have hall : ∀ x ∈ countryCodeMap, x.2 ∈ knownCountries := by decide
  exact hall pr (List.mem_of_find?_eq_some hfind)

lemma known_ne_empty (v : String) (h : v ∈ knownCountries) : v ≠ "" := by
  intro he
  subst he
  revert h
  decide

lemma strTruthy_getD_ne (o : Option String) (h : strTruthy o = true) :
    o.getD "" ≠ "" := by
  cases o with
  | none => exact absurd h (by simp [strTruthy])
  | some s =>
    simp only [strTruthy, decide_eq_true_eq] at h
    simpa using h

lemma codeLookup_getD_ne (o : Option String) (h : strTruthy o = true) :
    (codeLookup (o.getD "")).getD (o.getD "") ≠ "" := by
  rcases hlook : codeLookup (o.getD "") with _ | m
  · simpa using strTruthy_getD_ne o h
  · simpa using known_ne_empty m (codeLookup_mem_known _ m hlook)

lemma boxInfer_known (la ln : Rat) (v : String)
    (h : boxInfer la ln = some v) : v ∈ knownCountries := by
  unfold boxInfer at h
  split at h
  · injection h with h
    subst h
    decide
  · split at h
    · injection h with h
      subst h
      decide
    · split at h
      · injection h with h
        subst h
        decide
      · exact absurd h (by simp)

lemma initialPair_ne (row : ArtistRow) :
    (initialPair row).1 ≠ some "" ∧ (initialPair row).2 ≠ some "" := by
  unfold initialPair
  split
  · next hg =>
    simp only [Bool.and_eq_true] at hg
    exact ⟨strTruthy_ne _ hg.1.1.1.1, strTruthy_ne _ hg.1.1.1.2⟩
  · split
    · next hg =>
      simp only [Bool.and_eq_true] at hg
      constructor
      · exact strTruthy_ne _ hg.1
      · split
        · exact strTruthy_ne _ hg.2
        · exact orJS_ne _ _ (strTruthy_ne _ hg.2)
    · split
      · next hg =>
        exact ⟨strTruthy_ne _ hg, orJS_ne _ _ (by simp)⟩
      · split
        · next hg =>
          split
          · exact ⟨orJS_ne _ _ (by simp), strTruthy_ne _ hg⟩
          · constructor
            · exact strTruthy_ne _ hg
            · split
              · next hg2 =>
                simp only [Bool.and_eq_true] at hg2
                exact strTruthy_ne _ hg2.1.1
              · split
                · next hg3 => exact strTruthy_ne _ hg3
                · simp
        · exact ⟨orJS_ne _ _ (by simp), orJS_ne _ _ (by simp)⟩

lemma passSwap_ne (p : Option String × Option String)
    (h1 : p.1 ≠ some "") (h2 : p.2 ≠ some "") :
    (passSwap p).1 ≠ some "" ∧ (passSwap p).2 ≠ some "" := by
  unfold passSwap
  split
  · exact ⟨h2, h1⟩
  · exact ⟨h1, h2⟩

lemma passCityInCountry_ne (p : Option String × Option String)
    (h1 : p.1 ≠ some "") (h2 : p.2 ≠ some "") :
    (passCityInCountry p).1 ≠ some "" ∧
      (passCityInCountry p).2 ≠ some "" := by
  unfold passCityInCountry
  split
  · exact ⟨h2, by simp⟩
  · exact ⟨h1, h2⟩

lemma passDupCollapse_ne (p : Option String × Option String)
    (h1 : p.1 ≠ some "") (h2 : p.2 ≠ some "") :
    (passDupCollapse p).1 ≠ some "" ∧ (passDupCollapse p).2 ≠ some "" := by
  unfold passDupCollapse
  split
  · exact ⟨h1, by simp⟩
  · exact ⟨h1, h2⟩

lemma passCodeMap_ne (row : ArtistRow) (p : Option String × Option String)
    (h1 : p.1 ≠ some "") (h2 : p.2 ≠ some "") :
    (passCodeMap row p).1 ≠ some "" ∧ (passCodeMap row p).2 ≠ some "" := by
  unfold passCodeMap
  split
  · next hg =>
    simp only [Bool.and_eq_true] at hg
    exact ⟨h1, by simp [codeLookup_getD_ne row.country_code hg.1]⟩
  · exact ⟨h1, h2⟩

lemma passCoordInfer_ne (row : ArtistRow)
    (p : Option String × Option String)
    (h1 : p.1 ≠ some "") (h2 : p.2 ≠ some "") :
    (passCoordInfer row p).1 ≠ some "" ∧
      (passCoordInfer row p).2 ≠ some "" := by
  unfold passCoordInfer
  split
  · rcases hbox : boxInfer (row.lat.getD 0) (row.lng.getD 0) with _ | v
    · exact ⟨h1, h2⟩
    · exact ⟨h1, by simp [known_ne_empty v (boxInfer_known _ _ v hbox)]⟩
  · exact ⟨h1, h2⟩

lemma passFinalCodeMap_ne (row : ArtistRow)
    (p : Option String × Option String)
    (h1 : p.1 ≠ some "") (h2 : p.2 ≠ some "") :
    (passFinalCodeMap row p).1 ≠ some "" ∧
      (passFinalCodeMap row p).2 ≠ some "" := by
  unfold passFinalCodeMap
  split
  · next hg =>
    simp only [Bool.and_eq_true] at hg
    rcases hlook : codeLookup (row.country_code.getD "") with _ | m
    · exact ⟨h1, by simp [strTruthy_getD_ne row.country_code hg.2]⟩
    · exact ⟨h1, by simp [known_ne_empty m (codeLookup_mem_known _ m hlook)]⟩
  · exact ⟨h1, h2⟩

lemma resolve_dup_known (row : ArtistRow) (c : String)
    (h : resolveCityCountry row = (some c, some c)) :
    c ∈ knownCountries := by
  have h0 := initialPair_ne row
  have hp1 := passSwap_ne _ h0.1 h0.2
  have hp2 := passCityInCountry_ne _ hp1.1 hp1.2
  have hp3 := passDupCollapse_ne _ hp2.1 hp2.2
  have hp4 := passCodeMap_ne row _ hp3.1 hp3.2
  have hp5 := passCoordInfer_ne row _ hp4.1 hp4.2
  have hp6 := passFinalCodeMap_ne row _ hp5.1 hp5.2
  unfold resolveCityCountry at h
  set q := passFinalCodeMap row (passCoordInfer row (passCodeMap row
    (passDupCollapse (passCityInCountry (passSwap (initialPair row))))))
    with hqdef
  unfold passLastResort at h
  split at h
  · rw [Prod.mk.injEq] at h
    obtain ⟨hc1, hc2⟩ := h
    split at hc2
    · exact codeLookup_mem_known _ c hc2
    · exact absurd hc2 (by simp)
  · next hguard =>
    have hq1 : q.1 = some c := by rw [h]
    have hcne : c ≠ "" := by
      intro he
      subst he
      exact hp6.1 hq1
    by_contra hk
    apply hguard
    rw [h]
    simp [strTruthy, isKnownOpt, hcne, hk]

/-- Claim C1 (counterexample): the no-duplicate invariant fails when the
duplicated value is itself a recognized country name: a stored record with
city = country = "Canada" (coordinates present, no area fields) resolves to
a ResolvedLocation whose city and country are both defined and identical —
every duplicate-collapse pass is guarded by `!knownCountries.has(city)` or
by a country_code re-mapping that reproduces the same name. -/
theorem no_duplicate_invariant_counterexample :
    getLocationRow canadaDupRow =
      some ⟨1, 1, some "Canada", some "Canada"⟩ := by
  decide

/-- Claim C1 (amended): for every stored record with coordinates present,
if the returned ResolvedLocation has city and country both defined and
equal, then the shared value is a recognized country name; equivalently,
every duplicate pair whose value is NOT a recognized country name is
corrected or has country dropped before the result is returned. -/
theorem duplicate_city_country_only_known (row : ArtistRow)
    (loc : ResolvedLocation) (c : String)
    (h : getLocationRow row = some loc) (hc : loc.city = some c)
    (hco : loc.country = some c) : c ∈ knownCountries := by
  unfold getLocationRow at h
  split at h
  · injection h with h
    subst h
    apply resolve_dup_known row c
    have hx1 : (resolveCityCountry row).1 = some c := hc
    have hx2 : (resolveCityCountry row).2 = some c := hco
    have heta : resolveCityCountry row =
        ((resolveCityCountry row).1, (resolveCityCountry row).2) := rfl
    rw [heta, hx1, hx2]
  · exact absurd h (by simp)

/-- Witness for `duplicate_city_country_only_known`: the surviving duplicate
of the counterexample record is the recognized country name "Canada". -/
theorem duplicate_city_country_only_known_witness :
    "Canada" ∈ knownCountries :=
  duplicate_city_country_only_known canadaDupRow
    ⟨1, 1, some "Canada", some "Canada"⟩ "Canada" (by decide) rfl rfl
